import Mathlib

/-!
Shallow embedding of the book-store HTTP service (src/main.go).

The store is the global slice `books`; each handler is modelled as a pure
function from the current store (plus its decoded request data) to the new
store and the HTTP response it writes.  Go `int` arithmetic is 64-bit
two's-complement, modelled by `wrap64`.
-/

/-- 64-bit two's-complement wraparound, the semantics of Go `int` arithmetic
on a 64-bit platform (the modulus is 2^64, the offset 2^63). -/
def wrap64 (x : Int) : Int :=
  (x + 9223372036854775808) % 18446744073709551616 - 9223372036854775808

/-- `x` is representable as a 64-bit signed integer (a Go `int` value). -/
def int64InRange (x : Int) : Prop :=
  -9223372036854775808 ≤ x ∧ x < 9223372036854775808

instance (x : Int) : Decidable (int64InRange x) :=
  inferInstanceAs (Decidable (_ ∧ _))

/-- `book` from src/main.go: ID, title, author and quantity. -/
structure Book where
  ID : String
  Title : String
  Author : String
  Quantity : Int
deriving Repr, DecidableEq, Inhabited

/-- The seed store `books` from src/main.go. -/
def books : List Book :=
  [⟨"1", "Golang pointers", "Mr. Golang", 2⟩,
   ⟨"2", "Goroutines", "Mr. Goroutine", 20⟩,
   ⟨"3", "Golang routers", "Mr. Router", 30⟩,
   ⟨"4", "Golang concurrency", "Mr. Currency", 40⟩]

/-- A JSON response body as written by the handlers. -/
inductive Body where
  | books : List Book → Body
  | book : Book → Body
  | message : String → Body
  | messageData : String → Book → Body
deriving Repr, DecidableEq

/-- `getBookById` from src/main.go: linear scan for the first record whose
`ID` equals `id`.  The Go function returns a pointer `&books[i]`; the model
returns the index `i` (so that mutation through it is visible in the store). -/
def getBookById : List Book → String → Option Nat
  | [], _ => none
  | b :: rest, id =>
    if b.ID = id then some 0 else (getBookById rest id).map (· + 1)

/-- `getBooks` from src/main.go: respond 200 with the whole store. -/
def getBooks (bs : List Book) : Nat × Body := (200, Body.books bs)

/-- `createBook` from src/main.go.  `decoded` is the result of `BindJSON`:
`none` when the payload does not decode (the handler just returns, writing
no response), `some newBook` otherwise (append verbatim, respond 201). -/
def createBook (bs : List Book) (decoded : Option Book) :
    List Book × Option (Nat × Body) :=
  match decoded with
  | none => (bs, none)
  | some newBook => (bs ++ [newBook], some (201, Body.book newBook))

/-- `bookById` from src/main.go: look the id up, respond 404
"Book not found" on failure, 200 with the record on success. -/
def bookById (bs : List Book) (id : String) : Nat × Body :=
  match getBookById bs id with
  | none => (404, Body.message "Book not found")
  | some i => (200, Body.book (bs.getD i default))

/-- `checkoutBook` from src/main.go.  `id` is the result of
`c.GetQuery("id")`: `none` when the query parameter is absent. -/
def checkoutBook (bs : List Book) (id : Option String) :
    List Book × Nat × Body :=
  match id with
  | none => (bs, 400, Body.message "missing query parameter 'id' ")
  | some id =>
    match getBookById bs id with
    | none => (bs, 404, Body.message "book not found")
    | some i =>
      let b := bs.getD i default
      if b.Quantity ≤ 0 then
        (bs, 400,
         Body.message "book is not available at the moment, check in again later")
      else
        let b' := { b with Quantity := wrap64 (b.Quantity - 1) }
        (bs.set i b', 200, Body.messageData "success" b')

/-- `returnBook` from src/main.go. -/
def returnBook (bs : List Book) (id : Option String) :
    List Book × Nat × Body :=
  match id with
  | none => (bs, 400, Body.message "missing query parameter 'id'")
  | some id =>
    match getBookById bs id with
    | none => (bs, 404, Body.message "book not found")
    | some i =>
      let b := bs.getD i default
      let b' := { b with Quantity := wrap64 (b.Quantity + 1) }
      (bs.set i b', 200, Body.book b')

/-- A finite sequence of successful `createBook` calls, in call order. -/
def runCreates (bs : List Book) (created : List Book) : List Book :=
  created.foldl (fun s b => (createBook s (some b)).1) bs

/-- `n` consecutive `checkoutBook` calls with the same `id`, keeping the
store each call leaves behind. -/
def checkoutN (bs : List Book) (id : String) : Nat → List Book
  | 0 => bs
  | n + 1 => (checkoutBook (checkoutN bs id n) (some id)).1

/-! ### Helper lemmas -/

theorem wrap64_id (x : Int) (h : int64InRange x) : wrap64 x = x := by
  obtain ⟨h1, h2⟩ := h
  unfold wrap64
  rw [Int.emod_eq_of_lt (by omega) (by omega)]
  omega

theorem getD_set_self {α : Type} (a d : α) :
    ∀ (l : List α) (i : Nat), i < l.length → (l.set i a).getD i d = a
  | [], _, h => absurd h (Nat.not_lt_zero _)
  | _ :: _, 0, _ => rfl
  | _ :: xs, i + 1, h => getD_set_self a d xs i (Nat.lt_of_succ_lt_succ h)

theorem getD_set_ne {α : Type} (a d : α) :
    ∀ (l : List α) (i j : Nat), i ≠ j → (l.set i a).getD j d = l.getD j d
  | [], _, _, _ => rfl
  | _ :: _, 0, 0, h => absurd rfl h
  | _ :: _, 0, _ + 1, _ => rfl
  | _ :: _, _ + 1, 0, _ => rfl
  | _ :: xs, i + 1, j + 1, h =>
      getD_set_ne a d xs i j (fun e => h (by rw [e]))

theorem getBookById_lt_length (id : String) :
    ∀ (bs : List Book) (i : Nat), getBookById bs id = some i → i < bs.length := by
  intro bs
  induction bs with
  | nil => intro i h; simp [getBookById] at h
  | cons b rest ih =>
    intro i h
    simp only [getBookById] at h
    by_cases hb : b.ID = id
    · simp [hb] at h
      subst h
      simp
    · simp [hb, Option.map_eq_some'] at h
      obtain ⟨j, hj, rfl⟩ := h
      have := ih j hj
      simp only [List.length_cons]
      omega

theorem getBookById_first (id : String) :
    ∀ (bs : List Book) (i : Nat), getBookById bs id = some i →
      (bs.getD i default).ID = id ∧ ∀ j, j < i → (bs.getD j default).ID ≠ id := by
  intro bs
  induction bs with
  | nil => intro i h; simp [getBookById] at h
  | cons b rest ih =>
    intro i h
    simp only [getBookById] at h
    by_cases hb : b.ID = id
    · simp [hb] at h
      subst h
      exact ⟨hb, fun j hj => absurd hj (Nat.not_lt_zero _)⟩
    · simp [hb, Option.map_eq_some'] at h
      obtain ⟨j, hj, rfl⟩ := h
      obtain ⟨h1, h2⟩ := ih j hj
      refine ⟨h1, ?_⟩
      intro k hk
      cases k with
      | zero => simpa using hb
      | succ k => exact h2 k (Nat.lt_of_succ_lt_succ hk)

theorem getBookById_find (id : String) :
    ∀ bs : List Book,
      (getBookById bs id).map (fun i => bs.getD i default)
        = bs.find? (fun b => b.ID == id) := by
  intro bs
  induction bs with
  | nil => rfl
  | cons b rest ih =>
    by_cases hb : b.ID = id
    · simp [getBookById, hb, List.find?_cons]
    · have hb' : (b.ID == id) = false := by simpa using hb
      simp only [getBookById, hb, if_false, List.find?_cons, hb',
        Option.map_map, Function.comp, List.getD_cons_succ]
      exact ih

theorem runCreates_eq_append :
    ∀ (created bs : List Book), runCreates bs created = bs ++ created
  | [], bs => by simp [runCreates]
  | c :: rest, bs => by
      have h : runCreates bs (c :: rest) = runCreates (bs ++ [c]) rest := rfl
      rw [h, runCreates_eq_append rest (bs ++ [c])]
      simp

/-! ### Claim theorems -/

/-- Claim C3: for every store state, Checkout and Return invoked without an
id parameter respond 400 (with their missing-parameter messages) and return
the store completely unchanged. -/
theorem missing_id_rejected (bs : List Book) :
    checkoutBook bs none = (bs, 400, Body.message "missing query parameter 'id' ") ∧
    returnBook bs none = (bs, 400, Body.message "missing query parameter 'id'") :=
  ⟨rfl, rfl⟩

/-- Claim C7 counterexample: the body Checkout writes for a missing id is
not the string claimed (the code's literal carries a trailing space). -/
theorem checkout_missing_id_message_cex :
    ¬ ((checkoutBook books none).2.1 = 400 ∧
       (checkoutBook books none).2.2 = Body.message "missing query parameter 'id'") := by
  decide

/-- Claim C7 (amended): Checkout with no id query parameter responds 400
with the exact message "missing query parameter 'id' " — note the trailing
space before the closing quote in the source literal. -/
theorem checkout_missing_id_message (bs : List Book) :
    (checkoutBook bs none).2.1 = 400 ∧
    (checkoutBook bs none).2.2 = Body.message "missing query parameter 'id' " :=
  ⟨rfl, rfl⟩

/-- Claim C8: when the Create payload fails to decode, the handler aborts
writing no response at all (no body, no status), and the store is unchanged. -/
theorem create_decode_failure_aborts (bs : List Book) :
    createBook bs none = (bs, none) :=
  rfl

/-- Claim C5: fetching a book by id returns 200 with the first record in
insertion order whose ID matches (the first match as computed by
`List.find?`), and responds 404 "Book not found" when no record matches. -/
theorem bookById_first_match (bs : List Book) (id : String) :
    bookById bs id =
      match bs.find? (fun b => b.ID == id) with
      | some b => (200, Body.book b)
      | none => (404, Body.message "Book not found") := by
  have h := getBookById_find id bs
  unfold bookById
  cases hg : getBookById bs id with
  | none =>
      rw [hg] at h
      simp only [Option.map_none'] at h
      rw [← h]
  | some i =>
      rw [hg] at h
      simp only [Option.map_some'] at h
      rw [← h]

/-- Claim C6: Create appends the decoded record verbatim (no duplicate-id
check, no validation: it succeeds for every record) and responds 201 with
the record; after any finite sequence of successful Create calls from the
seed state, List responds 200 with exactly the four seed records followed
by the created records in call order. -/
theorem create_then_list (bs : List Book) (b : Book) (created : List Book) :
    createBook bs (some b) = (bs ++ [b], some (201, Body.book b)) ∧
    getBooks (runCreates books created) = (200, Body.books (books ++ created)) := by
  refine ⟨rfl, ?_⟩
  unfold getBooks
  rw [runCreates_eq_append]

/-- Claim C9: starting from the seed store, after one Checkout of id "1"
and then five more, the store the sixth call sees has quantity 0 for book
"1", and that sixth call fails with the unavailability message, leaving the
store unchanged. -/
theorem sixth_checkout_unavailable :
    ((checkoutN books "1" 5).getD 0 default).Quantity = 0 ∧
    getBookById (checkoutN books "1" 5) "1" = some 0 ∧
    checkoutBook (checkoutN books "1" 5) (some "1")
      = (checkoutN books "1" 5, 400,
         Body.message "book is not available at the moment, check in again later") := by
  decide

/-- Claim C1: for a record the store holds (found at index `i`), Checkout
with quantity q > 0 responds 200 and leaves the record's quantity at q - 1;
with q <= 0 it responds 400 and leaves the store unchanged. -/
theorem checkout_decrements_or_rejects (bs : List Book) (id : String) (i : Nat)
    (hfind : getBookById bs id = some i)
    (hrange : int64InRange (bs.getD i default).Quantity) :
    (0 < (bs.getD i default).Quantity →
      (checkoutBook bs (some id)).2.1 = 200 ∧
      ((checkoutBook bs (some id)).1.getD i default).Quantity
        = (bs.getD i default).Quantity - 1) ∧
    ((bs.getD i default).Quantity ≤ 0 →
      (checkoutBook bs (some id)).2.1 = 400 ∧
      (checkoutBook bs (some id)).1 = bs) := by
  have hlen := getBookById_lt_length id bs i hfind
  obtain ⟨hlo, hhi⟩ := hrange
  constructor
  · intro hq
    have hnot : ¬ (bs.getD i default).Quantity ≤ 0 := by omega
    simp only [checkoutBook, hfind, if_neg hnot]
    refine ⟨by trivial, ?_⟩
    rw [getD_set_self _ _ _ _ hlen]
    exact wrap64_id _ ⟨by omega, by omega⟩
  · intro hq
    simp only [checkoutBook, hfind, if_pos hq]
    exact ⟨by trivial, by trivial⟩

/-- Witness for C1: the seed store, id "1" (index 0, quantity 2). -/
theorem checkout_decrements_or_rejects_witness :
    (getBookById books "1" = some 0 ∧
     int64InRange (books.getD 0 default).Quantity) ∧
    ((0 < (books.getD 0 default).Quantity →
      (checkoutBook books (some "1")).2.1 = 200 ∧
      ((checkoutBook books (some "1")).1.getD 0 default).Quantity
        = (books.getD 0 default).Quantity - 1) ∧
    ((books.getD 0 default).Quantity ≤ 0 →
      (checkoutBook books (some "1")).2.1 = 400 ∧
      (checkoutBook books (some "1")).1 = books)) :=
  ⟨⟨by decide, by decide⟩,
   checkout_decrements_or_rejects books "1" 0 (by decide) (by decide)⟩

/-- The seed store after creating a fifth book holding the largest Go `int`
value, 2^63 - 1; reachable through the Create endpoint. -/
def bigStore : List Book :=
  (createBook books (some ⟨"5", "Big Book", "A. Author", 9223372036854775807⟩)).1

/-- Claim C2 counterexample: quantity has an upper bound after all.  On the
book whose quantity is the largest Go `int`, Return still responds 200 but
the stored quantity wraps to the most negative `int` instead of growing by
exactly 1. -/
theorem return_unbounded_cex :
    (returnBook bigStore (some "5")).2.1 = 200 ∧
    (bigStore.getD 4 default).Quantity = 9223372036854775807 ∧
    ¬ ((returnBook bigStore (some "5")).1.getD 4 default).Quantity
        = (bigStore.getD 4 default).Quantity + 1 := by
  decide

/-- Claim C2 (amended): for a record the store holds (found at index `i`),
Return responds 200 and increments that record's quantity by exactly 1 for
every current value — including 0 and negative values — that is strictly
below the largest Go `int`, 2^63 - 1; at 2^63 - 1 the quantity wraps, so it
is bounded above rather than unbounded. -/
theorem return_increments_below_max (bs : List Book) (id : String) (i : Nat)
    (hfind : getBookById bs id = some i)
    (hlo : -9223372036854775808 ≤ (bs.getD i default).Quantity)
    (hhi : (bs.getD i default).Quantity < 9223372036854775807) :
    (returnBook bs (some id)).2.1 = 200 ∧
    ((returnBook bs (some id)).1.getD i default).Quantity
      = (bs.getD i default).Quantity + 1 := by
  have hlen := getBookById_lt_length id bs i hfind
  simp only [returnBook, hfind]
  refine ⟨by trivial, ?_⟩
  rw [getD_set_self _ _ _ _ hlen]
  exact wrap64_id _ ⟨by omega, by omega⟩

/-- A one-record store whose quantity is negative. -/
def negStore : List Book := [⟨"1", "Neg Book", "N. Author", -3⟩]

/-- Witness for C2 (amended) at a negative quantity: -3 becomes -2. -/
theorem return_increments_below_max_witness :
    (getBookById negStore "1" = some 0 ∧
     -9223372036854775808 ≤ (negStore.getD 0 default).Quantity ∧
     (negStore.getD 0 default).Quantity < 9223372036854775807) ∧
    ((returnBook negStore (some "1")).2.1 = 200 ∧
     ((returnBook negStore (some "1")).1.getD 0 default).Quantity
       = (negStore.getD 0 default).Quantity + 1) :=
  ⟨⟨by decide, by decide, by decide⟩,
   return_increments_below_max negStore "1" 0 (by decide) (by decide) (by decide)⟩

/-- Claim C4: for every store and every id matching no record, Checkout and
Return respond 404 "book not found" and leave the store unchanged. -/
theorem unknown_id_not_found (bs : List Book) (id : String)
    (h : getBookById bs id = none) :
    checkoutBook bs (some id) = (bs, 404, Body.message "book not found") ∧
    returnBook bs (some id) = (bs, 404, Body.message "book not found") := by
  constructor
  · simp only [checkoutBook, h]
  · simp only [returnBook, h]

/-- Witness for C4: the seed store and the absent id "999". -/
theorem unknown_id_not_found_witness :
    getBookById books "999" = none ∧
    (checkoutBook books (some "999") = (books, 404, Body.message "book not found") ∧
     returnBook books (some "999") = (books, 404, Body.message "book not found")) :=
  ⟨by decide, unknown_id_not_found books "999" (by decide)⟩

/-- Claim C10: a successful Checkout (quantity positive) and any found
Return touch only the quantity of the first record whose ID matches: that
record's ID, title and author, every other position, and the store's length
are unchanged, and every position before `i` has a different ID (so with
duplicate ids only the first match is affected). -/
theorem successful_mutation_frame (bs : List Book) (id : String) (i : Nat)
    (hfind : getBookById bs id = some i) :
    ((bs.getD i default).ID = id ∧
     ∀ j, j < i → (bs.getD j default).ID ≠ id) ∧
    (0 < (bs.getD i default).Quantity →
      (checkoutBook bs (some id)).1.length = bs.length ∧
      ((checkoutBook bs (some id)).1.getD i default).ID = (bs.getD i default).ID ∧
      ((checkoutBook bs (some id)).1.getD i default).Title = (bs.getD i default).Title ∧
      ((checkoutBook bs (some id)).1.getD i default).Author = (bs.getD i default).Author ∧
      ∀ j, j ≠ i → (checkoutBook bs (some id)).1.getD j default = bs.getD j default) ∧
    ((returnBook bs (some id)).1.length = bs.length ∧
     ((returnBook bs (some id)).1.getD i default).ID = (bs.getD i default).ID ∧
     ((returnBook bs (some id)).1.getD i default).Title = (bs.getD i default).Title ∧
     ((returnBook bs (some id)).1.getD i default).Author = (bs.getD i default).Author ∧
     ∀ j, j ≠ i → (returnBook bs (some id)).1.getD j default = bs.getD j default) := by
  have hlen := getBookById_lt_length id bs i hfind
  refine ⟨getBookById_first id bs i hfind, ?_, ?_⟩
  · intro hq
    have hnot : ¬ (bs.getD i default).Quantity ≤ 0 := by omega
    simp only [checkoutBook, hfind, if_neg hnot]
    refine ⟨by simp, ?_, ?_, ?_, ?_⟩
    · rw [getD_set_self _ _ _ _ hlen]
    · rw [getD_set_self _ _ _ _ hlen]
    · rw [getD_set_self _ _ _ _ hlen]
    · intro j hj
      exact getD_set_ne _ _ _ _ _ (Ne.symm hj)
  · simp only [returnBook, hfind]
    refine ⟨by simp, ?_, ?_, ?_, ?_⟩
    · rw [getD_set_self _ _ _ _ hlen]
    · rw [getD_set_self _ _ _ _ hlen]
    · rw [getD_set_self _ _ _ _ hlen]
    · intro j hj
      exact getD_set_ne _ _ _ _ _ (Ne.symm hj)

/-- A store with two records sharing the id "1". -/
def dupStore : List Book :=
  [⟨"1", "First Copy", "Author One", 5⟩, ⟨"1", "Second Copy", "Author Two", 7⟩]

/-- Witness for C10 on a store with duplicate ids: only index 0 is touched. -/
theorem successful_mutation_frame_witness :
    getBookById dupStore "1" = some 0 ∧
    (((dupStore.getD 0 default).ID = "1" ∧
      ∀ j, j < 0 → (dupStore.getD j default).ID ≠ "1") ∧
     (0 < (dupStore.getD 0 default).Quantity →
       (checkoutBook dupStore (some "1")).1.length = dupStore.length ∧
       ((checkoutBook dupStore (some "1")).1.getD 0 default).ID = (dupStore.getD 0 default).ID ∧
       ((checkoutBook dupStore (some "1")).1.getD 0 default).Title = (dupStore.getD 0 default).Title ∧
       ((checkoutBook dupStore (some "1")).1.getD 0 default).Author = (dupStore.getD 0 default).Author ∧
       ∀ j, j ≠ 0 → (checkoutBook dupStore (some "1")).1.getD j default = dupStore.getD j default) ∧
     ((returnBook dupStore (some "1")).1.length = dupStore.length ∧
      ((returnBook dupStore (some "1")).1.getD 0 default).ID = (dupStore.getD 0 default).ID ∧
      ((returnBook dupStore (some "1")).1.getD 0 default).Title = (dupStore.getD 0 default).Title ∧
      ((returnBook dupStore (some "1")).1.getD 0 default).Author = (dupStore.getD 0 default).Author ∧
      ∀ j, j ≠ 0 → (returnBook dupStore (some "1")).1.getD j default = dupStore.getD j default)) :=
  ⟨by decide, successful_mutation_frame dupStore "1" 0 (by decide)⟩
